import Mathlib

/-!
Verification of the star-shop bot core.

Shallow embedding of the core logic of the repository:

* `Bot` models `src/api/working_main.py` (conversation handlers
  `start`, `button_callback`, `process_number`, `stats` and the helper
  `generate_random_string`).
* `ApiDb` models `src/api/database.py` (the Supabase-backed store used by
  `working_main.py` via `from .database import ...`).
* `Db` models `src/database.py` (the sqlite-backed store).

Numeric text input (Python `float`) is modelled by an `Option ℚ` parse
result; arithmetic on amounts and prices uses exact rationals, and Python
string formatting with `"%.2f"` is modelled as correct rounding to two
decimals with ties to even (the rounding mode of both Python `round` and
float formatting).  Timestamps are integers (seconds); `datetime.now()`
becomes an explicit `now` argument, one hour is 3600 and 24 hours 86400.
Randomness (`random.choice`) is modelled by an explicit choice oracle
`Nat → Fin characters.length` supplying the index chosen at each draw.
-/

namespace Bot

/-- The alphabet `string.ascii_letters + string.digits` (62 characters) used
by `generate_random_string` in `src/api/working_main.py` (lowercase, then
uppercase, then digits, as in Python). -/
def characters : List Char :=
  "abcdefghijklmnopqrstuvwxyzABCDEFGHIJKLMNOPQRSTUVWXYZ0123456789".data

/-- Model of `generate_random_string` from `src/api/working_main.py`: the
join of `length` successive random draws from the alphabet.  The random
draws are supplied by the oracle `choice`. -/
def generate_random_string (choice : Nat → Fin characters.length) (length : Nat) : String :=
  { data := (List.range length).map (fun i => characters.get (choice i)) }

/-- Character of a decimal digit (`0 ≤ n ≤ 9` intended). -/
def digitChar (n : Nat) : Char := Char.ofNat (48 + n)

/-- Decimal digits of `n`, least significant first; `fuel` bounds recursion
and any `fuel ≥ n` is enough. -/
def natToRevDigits : Nat → Nat → List Char
  | 0, _ => []
  | _ + 1, 0 => []
  | fuel + 1, n => digitChar (n % 10) :: natToRevDigits fuel (n / 10)

/-- Decimal rendering of a natural number. -/
def natToString (n : Nat) : String :=
  if n = 0 then "0" else { data := (natToRevDigits n n).reverse }

/-- Value `100 * q` rounded to the nearest integer with ties to even (the rounding
performed by Python float formatting and by `round`), computed directly on
the numerator and (positive) denominator of `q`: `f` is the floor of
`100 * q` and `r2` is twice the remainder, so `r2 < d` means the fractional
part is below one half and `r2 = d` is an exact tie. -/
def roundCents (q : ℚ) : ℤ :=
  let n := 100 * q.num
  let d := (q.den : ℤ)
  let f := Int.fdiv n d
  let r2 := 2 * (n - d * f)
  if r2 < d then f
  else if d < r2 then f + 1
  else if f % 2 = 0 then f else f + 1

/-- Integer part of the two-decimal rendering of `q` (nonnegative `q`
intended, which is the only case the bot reaches: amounts are `≥ 50`). -/
def intPart2 (q : ℚ) : String :=
  natToString ((roundCents q / 100).toNat)

/-- The two fractional digits of the two-decimal rendering of `q`. -/
def fracPart2 (q : ℚ) : String :=
  { data := [digitChar ((roundCents q % 100).toNat / 10),
             digitChar ((roundCents q % 100).toNat % 10)] }

/-- Model of Python `f-string` formatting with `:.2f` for a nonnegative
value under exact-rational semantics: the value is correctly rounded to two
decimal places (ties to even) and rendered with exactly two fractional
digits. -/
def formatTwoDec (q : ℚ) : String :=
  intPart2 q ++ "." ++ fracPart2 q

/-- Conversation state constant `EXPECTING_NUMBER = 1` from
`src/api/working_main.py`. -/
def EXPECTING_NUMBER : ℤ := 1

/-- Constant `telegram.ext.ConversationHandler.END = -1`: the terminal return value
used by the handlers that end the conversation. -/
def ConversationHandler_END : ℤ := -1

/-- The messages the bot can emit, abstracted to their data content
(the literal MarkdownV2 text is elided; each constructor corresponds to one
`reply_text`/`edit_text` call site in `src/api/working_main.py`). -/
inductive Msg
  /-- The main menu message of `start` and of the `home` callback
  (Buy/Earn buttons). -/
  | welcome
  /-- The `button1` prompt asking for the amount of stars. -/
  | enterAmount
  /-- The `button2` affiliate summary (name elided; shows the user id and
  the referral count). -/
  | affiliate (userId : ℤ) (refCount : ℤ)
  /-- The `withdraw` success message with its reference string. -/
  | withdrawAvailable (reference : String)
  /-- The `withdraw` refusal message showing `remaining` and the count. -/
  | insufficientReferrals (remaining : ℤ) (refCount : ℤ)
  /-- The invoice emitted by `process_number` on success: buyer name,
  amount, formatted price string and order id. -/
  | invoice (buyer : String) (amount : ℚ) (price : String) (orderId : String)
  /-- The follow-up warning message after the invoice (carries the Home
  button). -/
  | caution
  /-- The `Too low! Value must be atleast 50` error. -/
  | tooLow
  /-- The `Error: Not a number` error. -/
  | notANumber
  /-- The admin statistics report of the `stats` command. -/
  | statsReport (connections : ℤ) (uniqueUsers : ℤ) (peak : ℤ) (avg : ℚ)
      (allTimePeak : ℤ)
deriving DecidableEq

/-- Result of one `process_number` invocation: the messages sent, the value
returned to the `ConversationHandler`, and the order ids generated by calls
to `generate_random_string`. -/
structure ProcResult where
  messages : List Msg
  ret : ℤ
  orderIds : List String
deriving DecidableEq

/-- Model of `process_number` from `src/api/working_main.py`.  `parsed` is the
outcome of `float(update.message.text)` (`none` models the `ValueError`
branch).  Note the function returns `EXPECTING_NUMBER` on every path. -/
def process_number (userName : String) (parsed : Option ℚ)
    (choice : Nat → Fin characters.length) : ProcResult :=
  match parsed with
  | none => { messages := [Msg.notANumber], ret := EXPECTING_NUMBER, orderIds := [] }
  | some number =>
    if 50 ≤ number then
      let result := number * (51/20000 : ℚ)
      let formatted_result := formatTwoDec result
      let random_string := generate_random_string choice 15
      { messages := [Msg.invoice userName number formatted_result random_string, Msg.caution]
        ret := EXPECTING_NUMBER
        orderIds := [random_string] }
    else
      { messages := [Msg.tooLow], ret := EXPECTING_NUMBER, orderIds := [] }

/-- A fixed choice oracle (always the first character of the alphabet),
used to instantiate theorems at concrete inputs. -/
def zeroChoice : Nat → Fin characters.length := fun _ => ⟨0, by decide⟩

end Bot

/-- One row of the `usage_stats` table: `(timestamp, connections)`. -/
structure UsageSample where
  timestamp : ℤ
  connections : ℤ
deriving DecidableEq

/-- Python `max` over a nonempty list (the code only calls it under a
nonemptiness guard; on `[]` we return `0`, a case the guarded code never
reaches). -/
def pyMax : List ℤ → ℤ
  | [] => 0
  | x :: xs => xs.foldl max x

namespace ApiDb

/-!
Model of `src/api/database.py`, the Supabase-backed store imported by
`src/api/working_main.py`.  A table is a list of rows in insertion order.
The `referrals` table is a list of `(referrer_id, count)` pairs and the
`users` table a list of `(user_id, first_seen)` pairs.  Supabase itself is
external to the repository; per the spec (section 6) the persisted schema
has `referrer_id` and `user_id` as primary keys, so an `insert` of an
already-present key raises an error that the surrounding `except` block
swallows, leaving the table unchanged.
-/

/-- Model of the select call filtered on the referrer id, followed by
taking the count column of the first returned row: the stored count for
`r`, if a row exists. -/
def lookupCount (r : ℤ) : List (ℤ × ℤ) → Option ℤ
  | [] => none
  | (k, c) :: rest => if k = r then some c else lookupCount r rest

/-- Model of the update call: set the count of every row whose key is `r`
(SQL UPDATE ... WHERE semantics). -/
def updateCount (r c : ℤ) (db : List (ℤ × ℤ)) : List (ℤ × ℤ) :=
  db.map (fun p => if p.1 = r then (p.1, c) else p)

/-- Model of the insert of a fresh referral row with count 1, against the
primary key `referrer_id`.  Modelled from the spec: the Supabase schema lives outside
the repository; spec section 6 declares `referrals(referrer_id PK, count)`,
so a duplicate insert errors and (the exception being caught) leaves the
table unchanged. -/
def insertReferral (r : ℤ) (db : List (ℤ × ℤ)) : List (ℤ × ℤ) :=
  if (lookupCount r db).isSome then db else db ++ [(r, 1)]

/-- Model of `increment_referral_count` from `src/api/database.py`, run without
interleaving: read the current count, then either update to `count + 1` or
insert a fresh row with count 1. -/
def increment_referral_count (r : ℤ) (db : List (ℤ × ℤ)) : List (ℤ × ℤ) :=
  match lookupCount r db with
  | some c => updateCount r (c + 1) db
  | none => insertReferral r db

/-- Model of `get_referral_count` from `src/api/database.py`: the stored count, or 0
when no row exists. -/
def get_referral_count (user_id : ℤ) (db : List (ℤ × ℤ)) : ℤ :=
  (lookupCount user_id db).getD 0

/-- Progress of one in-flight `increment_referral_count` call, which
performs two separate atomic storage operations: first the `select` of the
current count, then the `update`-or-`insert` based on what was read. -/
inductive IncPhase
  /-- The call has not yet executed its `select`. -/
  | readPending
  /-- The `select` returned `res`; the write has not happened yet. -/
  | writePending (res : Option ℤ)
  /-- The call has finished. -/
  | finished
deriving DecidableEq

/-- One atomic step of an in-flight `increment_referral_count` call for
referrer `r`. -/
def incStep (r : ℤ) (ph : IncPhase) (db : List (ℤ × ℤ)) :
    IncPhase × List (ℤ × ℤ) :=
  match ph with
  | .readPending => (.writePending (lookupCount r db), db)
  | .writePending res =>
    match res with
    | some c => (.finished, updateCount r (c + 1) db)
    | none => (.finished, insertReferral r db)
  | .finished => (.finished, db)

/-- Run concurrent `increment_referral_count` calls under an explicit
interleaving: `procs` holds the phase of each call and the schedule names,
in order, which call performs its next atomic storage operation. -/
def runSched (r : ℤ) : List Nat → List IncPhase → List (ℤ × ℤ) →
    List IncPhase × List (ℤ × ℤ)
  | [], procs, db => (procs, db)
  | i :: rest, procs, db =>
    match procs.get? i with
    | none => runSched r rest procs db
    | some ph =>
      let s := incStep r ph db
      runSched r rest (procs.set i s.1) s.2

/-- Model of `add_new_user` from `src/api/database.py`: a plain `insert` of
`(user_id, first_seen)`.  Modelled from the spec: `user_id` is the primary
key (spec section 6), so inserting an existing id errors and, the exception
being caught, leaves the table unchanged. -/
def add_new_user (now : ℤ) (user_id : ℤ) (db : List (ℤ × ℤ)) :
    List (ℤ × ℤ) :=
  if (db.filter (fun p => p.1 = user_id)).length ≠ 0 then db
  else db ++ [(user_id, now)]

/-- Model of `update_usage_stats` from `src/api/database.py`: insert one row with
the current timestamp and `connections = 1`. -/
def update_usage_stats (now : ℤ) (db : List UsageSample) : List UsageSample :=
  db ++ [{ timestamp := now, connections := 1 }]

/-- Model of `cleanup_old_stats` from `src/api/database.py`: delete every row whose
timestamp is strictly below `now - 24h`. -/
def cleanup_old_stats (now : ℤ) (db : List UsageSample) : List UsageSample :=
  db.filter (fun s => ¬ s.timestamp < now - 86400)

/-- The record returned by `get_usage_stats`. -/
structure Stats where
  current_connections : ℕ
  peak_last_hour : ℤ
  avg_last_hour : ℚ
  all_time_max : ℤ
deriving DecidableEq

/-- Model of `get_usage_stats` from `src/api/database.py`.  The first query selects
from `usage_stats` with no timestamp filter, so `current_connections` is
the number of ALL retained rows (`len(current.data)`); the last-hour
statistics select rows with `timestamp >= now - 1h` (`gte`); peak/average
and the all-time maximum fall back to 0 when their row sets are empty. -/
def get_usage_stats (now : ℤ) (db : List UsageSample) : Stats :=
  let hour_ago := now - 3600
  let current_connections := db.length
  let stats := db.filter (fun s => hour_ago ≤ s.timestamp)
  let connections := stats.map (fun s => s.connections)
  { current_connections := current_connections
    peak_last_hour := if connections = [] then 0 else pyMax connections
    avg_last_hour :=
      if connections = [] then 0
      else ((connections.sum : ℚ)) / (connections.length : ℚ)
    all_time_max := if db = [] then 0 else pyMax (db.map (fun s => s.connections)) }

/-- The usage-stats states reachable through the operations of the store itself:
the empty table, inserting a sample (`update_usage_stats`), and purging old
samples (`cleanup_old_stats`). -/
inductive UsageReachable : List UsageSample → Prop
  /-- The freshly created table is empty. -/
  | empty : UsageReachable []
  /-- Step for `update_usage_stats`: insert a sample with
  `connections = 1`. -/
  | update (now : ℤ) (db : List UsageSample) :
      UsageReachable db → UsageReachable (update_usage_stats now db)
  /-- Step for `cleanup_old_stats`: delete samples older than 24 hours. -/
  | cleanup (now : ℤ) (db : List UsageSample) :
      UsageReachable db → UsageReachable (cleanup_old_stats now db)

end ApiDb

namespace Db

/-!
Model of `src/database.py`, the sqlite-backed store.  The `users` table is
a list of user ids (the `first_seen` column takes a default value and is
never read), `referrals` a list of `(referrer_id, count)` pairs with
`referrer_id` as primary key, `usage_stats` a list of samples.
-/

/-- Model of `add_new_user` from `src/database.py`:
`INSERT OR IGNORE INTO users (user_id) VALUES (?)` against the primary key
`user_id`. -/
def add_new_user (user_id : ℤ) (db : List ℤ) : List ℤ :=
  if user_id ∈ db then db else db ++ [user_id]

/-- Model of `increment_referral_count` from `src/database.py`: a single atomic
upsert, `INSERT INTO referrals (referrer_id, count) VALUES (?, 1)
ON CONFLICT(referrer_id) DO UPDATE SET count = count + 1`. -/
def increment_referral_count (r : ℤ) (db : List (ℤ × ℤ)) : List (ℤ × ℤ) :=
  if (ApiDb.lookupCount r db).isSome then
    db.map (fun p => if p.1 = r then (p.1, p.2 + 1) else p)
  else db ++ [(r, 1)]

/-- The record returned by sqlite `get_usage_stats`; SQL `MAX`/`AVG` over
an empty row set yield `NULL`, modelled as `none`. -/
structure SqlStats where
  current_connections : ℕ
  peak_last_hour : Option ℤ
  avg_last_hour : Option ℚ
  all_time_max : Option ℤ
deriving DecidableEq

/-- SQL `MAX(column)`: `NULL` on an empty row set. -/
def sqlMax (l : List ℤ) : Option ℤ :=
  match l with
  | [] => none
  | x :: xs => some (xs.foldl max x)

/-- SQL `AVG(column)`: `NULL` on an empty row set. -/
def sqlAvg (l : List ℤ) : Option ℚ :=
  match l with
  | [] => none
  | _ :: _ => some ((l.sum : ℚ) / (l.length : ℚ))

/-- Model of `get_usage_stats` from `src/database.py`: one query filtered by
`timestamp > now - 1h` computing `COUNT(*)`, `MAX(connections)` and
`AVG(connections)`, plus a subquery for the unfiltered
`MAX(connections)`. -/
def get_usage_stats (now : ℤ) (db : List UsageSample) : SqlStats :=
  let hour_ago := now - 3600
  let rows := db.filter (fun s => hour_ago < s.timestamp)
  { current_connections := rows.length
    peak_last_hour := sqlMax (rows.map (fun s => s.connections))
    avg_last_hour := sqlAvg (rows.map (fun s => s.connections))
    all_time_max := sqlMax (db.map (fun s => s.connections)) }

end Db

namespace Bot

/-- Result of one `start` invocation: the two tables after the handler ran,
the messages sent, and the value returned to the `ConversationHandler`. -/
structure StartResult where
  users : List (ℤ × ℤ)
  referrals : List (ℤ × ℤ)
  messages : List Msg
  ret : ℤ
deriving DecidableEq

/-- Model of `start` from `src/api/working_main.py`.  `referralArg` models
`context.args`: `none` when no argument was passed, `some none` when the
argument was present but `int()` raised `ValueError` (silently ignored),
and `some (some r)` when it parsed to the id `r`.  The handler records the
user, credits the referrer unless it is the caller itself, shows the main
menu and ends the conversation. -/
def start (userId : ℤ) (referralArg : Option (Option ℤ)) (now : ℤ)
    (users referrals : List (ℤ × ℤ)) : StartResult :=
  let users2 := ApiDb.add_new_user now userId users
  let referrals2 :=
    match referralArg with
    | none => referrals
    | some none => referrals
    | some (some referrer_id) =>
      if referrer_id ≠ userId then ApiDb.increment_referral_count referrer_id referrals
      else referrals
  { users := users2
    referrals := referrals2
    messages := [Msg.welcome]
    ret := ConversationHandler_END }

/-- Result of one `button_callback` invocation; the Python function falls
off the end (returning `None`) on an unknown callback id, modelled as
`ret = none`. -/
structure CallbackResult where
  messages : List Msg
  ret : Option ℤ
deriving DecidableEq

/-- Model of `button_callback` from `src/api/working_main.py`, dispatching on
`query.data`: `button1` prompts for the amount, `button2` shows the
affiliate summary, `withdraw` checks the 100-referral threshold (emitting a
reference `WD-` plus an 8-character random string on success, or the
remaining count `100 - ref_count` otherwise), `home` re-renders the main
menu. -/
def button_callback (data : String) (userId : ℤ) (referrals : List (ℤ × ℤ))
    (choice : Nat → Fin characters.length) : CallbackResult :=
  if data = "button1" then
    { messages := [Msg.enterAmount], ret := some EXPECTING_NUMBER }
  else if data = "button2" then
    { messages := [Msg.affiliate userId (ApiDb.get_referral_count userId referrals)]
      ret := some ConversationHandler_END }
  else if data = "withdraw" then
    let ref_count := ApiDb.get_referral_count userId referrals
    if 100 ≤ ref_count then
      { messages := [Msg.withdrawAvailable ("WD-" ++ generate_random_string choice 8)]
        ret := some ConversationHandler_END }
    else
      { messages := [Msg.insufficientReferrals (100 - ref_count) ref_count]
        ret := some ConversationHandler_END }
  else if data = "home" then
    { messages := [Msg.welcome], ret := some ConversationHandler_END }
  else
    { messages := [], ret := none }

/-- Result of one `stats` invocation: the messages sent and the user ids
recorded by the `Unauthorized stats access attempt` warning log line. -/
structure StatsResult where
  messages : List Msg
  unauthorizedLog : List ℤ
deriving DecidableEq

/-- Model of `stats` from `src/api/working_main.py`.  `adminId` models the
environment-configured `ADMIN_USER_ID`.  A non-admin caller gets no reply,
only a warning log entry; the admin gets the report, whose displayed
all-time peak is `max(peak, connections, all_time)`. -/
def stats (callerId adminId : ℤ) (now : ℤ) (usage : List UsageSample)
    (uniqueUsers : ℤ) : StatsResult :=
  if callerId ≠ adminId then
    { messages := [], unauthorizedLog := [callerId] }
  else
    let sd := ApiDb.get_usage_stats now usage
    let connections : ℤ := sd.current_connections
    { messages := [Msg.statsReport connections uniqueUsers sd.peak_last_hour
        sd.avg_last_hour (max (max sd.peak_last_hour connections) sd.all_time_max)]
      unauthorizedLog := [] }

end Bot

/-- Number of rows of the sqlite `users` table holding the id `uid`. -/
def Db.userRecords (uid : ℤ) (db : List ℤ) : ℕ :=
  (db.filter (fun x => x = uid)).length

/-- Number of rows of the Supabase `users` table holding the id `uid`. -/
def ApiDb.userRecords (uid : ℤ) (db : List (ℤ × ℤ)) : ℕ :=
  (db.filter (fun p => p.1 = uid)).length

/-! ## Helper lemmas -/

theorem characters_alphanum : ∀ c ∈ Bot.characters, c.isAlphanum = true := by
  decide

theorem generate_random_string_length (choice : Nat → Fin Bot.characters.length)
    (n : Nat) : (Bot.generate_random_string choice n).length = n := by
  simp [Bot.generate_random_string, String.length]

theorem generate_random_string_alphanum (choice : Nat → Fin Bot.characters.length)
    (n : Nat) :
    ∀ c ∈ (Bot.generate_random_string choice n).data, c.isAlphanum = true := by
  intro c hc
  simp only [Bot.generate_random_string, List.mem_map, List.mem_range] at hc
  obtain ⟨i, _, rfl⟩ := hc
  exact characters_alphanum _ (List.get_mem _ _ (choice i).2)

theorem pyMax_of_ones (l : List ℤ) (h : ∀ x ∈ l, x = 1) (hne : l ≠ []) :
    pyMax l = 1 := by
  match l with
  | x :: xs =>
    have hx : x = 1 := h x (List.mem_cons_self x xs)
    have aux : ∀ (ys : List ℤ) (acc : ℤ), (∀ y ∈ ys, y = 1) → acc = 1 →
        ys.foldl max acc = 1 := by
      intro ys
      induction ys with
      | nil => intro acc _ hacc; simpa using hacc
      | cons y ys ih =>
        intro acc hy hacc
        have h1 : y = 1 := hy y (List.mem_cons_self y ys)
        have : max acc y = 1 := by rw [hacc, h1]; simp
        exact ih (max acc y) (fun z hz => hy z (List.mem_cons_of_mem y hz)) this
    exact aux xs x (fun z hz => h z (List.mem_cons_of_mem x hz)) hx

theorem sum_of_ones (l : List ℤ) (h : ∀ x ∈ l, x = 1) :
    l.sum = l.length := by
  induction l with
  | nil => simp
  | cons x xs ih =>
    have hx : x = 1 := h x (List.mem_cons_self x xs)
    simp only [List.sum_cons, List.length_cons, hx,
      ih (fun z hz => h z (List.mem_cons_of_mem x hz))]
    push_cast
    ring

theorem usage_reachable_all_ones (db : List UsageSample)
    (h : ApiDb.UsageReachable db) : ∀ s ∈ db, s.connections = 1 := by
  induction h with
  | empty => simp
  | update now db _ ih =>
    intro s hs
    rcases List.mem_append.mp hs with h1 | h2
    · exact ih s h1
    · simp only [List.mem_singleton] at h2
      rw [h2]
  | cleanup now db _ ih =>
    intro s hs
    exact ih s (List.mem_of_mem_filter hs)

/-! ## Claims -/

/-- C1: for every amount `a ≥ 50` entered while the conversation expects an
amount, the invoice quotes the price `formatTwoDec (a * 0.00255)` — the
two-decimal, ties-to-even rounding of `a * 0.00255` (0.00255 = 51/20000) —
whose rendering always has exactly two fractional digits; in particular for
amount 100 the rendered price string is `0.26`. -/
theorem quote_price_rounding (name : String)
    (choice : Nat → Fin Bot.characters.length) (a : ℚ) (h : 50 ≤ a) :
    (Bot.process_number name (some a) choice).messages =
      [Bot.Msg.invoice name a (Bot.formatTwoDec (a * (51/20000)))
        (Bot.generate_random_string choice 15), Bot.Msg.caution] ∧
    Bot.formatTwoDec (a * (51/20000)) =
      Bot.intPart2 (a * (51/20000)) ++ "." ++ Bot.fracPart2 (a * (51/20000)) ∧
    (Bot.fracPart2 (a * (51/20000))).data.length = 2 ∧
    Bot.formatTwoDec ((100 : ℚ) * (51/20000)) = "0.26" := by
  refine ⟨?_, rfl, rfl, ?_⟩
  · simp [Bot.process_number, if_pos h]
  · rw [show (100 : ℚ) * (51/20000) = Rat.divInt 51 200 by
      rw [Rat.divInt_eq_div]; norm_num]
    decide

/-- C1 witness: at amount 100 the quoted price string is `0.26`. -/
theorem quote_price_rounding_witness :
    Bot.formatTwoDec ((100 : ℚ) * (51/20000)) = "0.26" :=
  (quote_price_rounding "Ann" Bot.zeroChoice 100 (by norm_num)).2.2.2

/-- C3 counterexample: on the successful purchase path (amount 100) the
handler returns `EXPECTING_NUMBER`, which differs from
`ConversationHandler.END` — the resulting state is not terminal and the
amount-entry loop continues automatically. -/
theorem process_number_not_terminal :
    (Bot.process_number "Ann" (some 100) Bot.zeroChoice).ret =
      Bot.EXPECTING_NUMBER ∧
    Bot.EXPECTING_NUMBER ≠ Bot.ConversationHandler_END := by
  exact ⟨by decide, by decide⟩

/-- C3 (amended): for every input parsing to a value `≥ 50` in the
amount-entry state, the engine emits the order summary carrying a
15-character alphanumeric order id followed by the cautionary message, and
the conversation REMAINS in the amount-entry state `EXPECTING_NUMBER`
(the handler returns `EXPECTING_NUMBER`, not a terminal state). -/
theorem process_number_success_behavior (name : String)
    (choice : Nat → Fin Bot.characters.length) (a : ℚ) (h : 50 ≤ a) :
    (Bot.process_number name (some a) choice).messages =
      [Bot.Msg.invoice name a (Bot.formatTwoDec (a * (51/20000)))
        (Bot.generate_random_string choice 15), Bot.Msg.caution] ∧
    (Bot.generate_random_string choice 15).length = 15 ∧
    (∀ c ∈ (Bot.generate_random_string choice 15).data, c.isAlphanum = true) ∧
    (Bot.process_number name (some a) choice).ret = Bot.EXPECTING_NUMBER := by
  refine ⟨?_, generate_random_string_length choice 15,
    generate_random_string_alphanum choice 15, ?_⟩ <;>
    simp [Bot.process_number, if_pos h]

/-- C3 (amended) witness at amount 100. -/
theorem process_number_success_behavior_witness :
    (Bot.generate_random_string Bot.zeroChoice 15).length = 15 ∧
    (Bot.process_number "Ann" (some 100) Bot.zeroChoice).ret =
      Bot.EXPECTING_NUMBER :=
  ⟨(process_number_success_behavior "Ann" Bot.zeroChoice 100 (by norm_num)).2.1,
   (process_number_success_behavior "Ann" Bot.zeroChoice 100 (by norm_num)).2.2.2⟩

/-- C5: input that fails numeric parsing or parses below 50 produces the
matching error message (`Not a number` resp. `Too low`), leaves the
conversation in `EXPECTING_NUMBER`, and generates no order id. -/
theorem invalid_amount_keeps_state (name : String)
    (choice : Nat → Fin Bot.characters.length) (parsed : Option ℚ)
    (h : parsed = none ∨ ∃ v, parsed = some v ∧ v < 50) :
    (Bot.process_number name parsed choice).messages =
      (match parsed with
       | none => [Bot.Msg.notANumber]
       | some _ => [Bot.Msg.tooLow]) ∧
    (Bot.process_number name parsed choice).ret = Bot.EXPECTING_NUMBER ∧
    (Bot.process_number name parsed choice).orderIds = [] := by
  rcases h with rfl | ⟨v, rfl, hv⟩
  · exact ⟨rfl, rfl, rfl⟩
  · have hle : ¬ (50 : ℚ) ≤ v := not_le.mpr hv
    refine ⟨?_, ?_, ?_⟩ <;> simp [Bot.process_number, if_neg hle]

/-- C5 witness: amount 10 (below 50) yields the `Too low` error, stays in
`EXPECTING_NUMBER`, and generates no order id. -/
theorem invalid_amount_keeps_state_witness :
    (Bot.process_number "Bo" (some 10) Bot.zeroChoice).messages =
      [Bot.Msg.tooLow] ∧
    (Bot.process_number "Bo" (some 10) Bot.zeroChoice).ret =
      Bot.EXPECTING_NUMBER ∧
    (Bot.process_number "Bo" (some 10) Bot.zeroChoice).orderIds = [] :=
  invalid_amount_keeps_state "Bo" Bot.zeroChoice (some 10)
    (Or.inr ⟨10, rfl, by norm_num⟩)

/-- C2: `increment_referral_count` in `src/api/database.py` performs the
increment as a separate read followed by a write, not as an atomic
upsert-increment.  With three concurrent calls for referrer 7 (started on
the empty table) scheduled as: call 0 reads and writes, then calls 1 and 2
both read the count 1 before either writes, the final stored count is 2
instead of 3 — a lost update. -/
theorem referral_increment_lost_update :
    (ApiDb.lookupCount 7
      (ApiDb.runSched 7 [0, 0, 1, 2, 1, 2]
        [ApiDb.IncPhase.readPending, ApiDb.IncPhase.readPending,
          ApiDb.IncPhase.readPending] []).2) = some 2 := by
  decide

/-- C4 counterexample: with a single retained sample two hours old, the
`src/api/database.py` `get_usage_stats` reports `current_connections = 1`
although zero samples lie within the last hour window. -/
theorem api_current_connections_not_last_hour :
    (ApiDb.get_usage_stats 7200
      [{ timestamp := 0, connections := 1 }]).current_connections = 1 ∧
    (List.filter (fun s => decide (7200 - 3600 ≤ s.timestamp))
      [({ timestamp := 0, connections := 1 } : UsageSample)]).length = 0 := by
  exact ⟨rfl, rfl⟩

/-- C4 (amended): the sqlite `get_usage_stats` (`src/database.py`) returns
`current_connections` equal to the count of samples whose timestamp lies
within the last hour window, while the Supabase version
(`src/api/database.py`) returns the count of ALL retained samples,
regardless of timestamp. -/
theorem current_connections_semantics (now : ℤ) (db : List UsageSample) :
    (Db.get_usage_stats now db).current_connections =
      (db.filter (fun s => now - 3600 < s.timestamp)).length ∧
    (ApiDb.get_usage_stats now db).current_connections = db.length :=
  ⟨rfl, rfl⟩

/-- C6: a start command whose referral argument parses to the identifier of the caller itself leaves the referral table unchanged (anti-self-referral). -/
theorem self_referral_no_change (userId now : ℤ)
    (users referrals : List (ℤ × ℤ)) :
    (Bot.start userId (some (some userId)) now users referrals).referrals =
      referrals := by
  simp [Bot.start]

/-- C7: on the Withdraw selection, a referral count of at least 100 yields
the confirmation message carrying `WD-` plus a freshly generated
8-character alphanumeric token, and a count below 100 yields the
insufficient-referrals message computing `remaining = 100 - count`. -/
theorem withdraw_threshold (userId : ℤ) (referrals : List (ℤ × ℤ))
    (choice : Nat → Fin Bot.characters.length) :
    (100 ≤ ApiDb.get_referral_count userId referrals →
      (Bot.button_callback "withdraw" userId referrals choice).messages =
        [Bot.Msg.withdrawAvailable
          ("WD-" ++ Bot.generate_random_string choice 8)] ∧
      (Bot.generate_random_string choice 8).length = 8 ∧
      ∀ c ∈ (Bot.generate_random_string choice 8).data, c.isAlphanum = true) ∧
    (ApiDb.get_referral_count userId referrals < 100 →
      (Bot.button_callback "withdraw" userId referrals choice).messages =
        [Bot.Msg.insufficientReferrals
          (100 - ApiDb.get_referral_count userId referrals)
          (ApiDb.get_referral_count userId referrals)]) := by
  constructor
  · intro h
    refine ⟨?_, generate_random_string_length choice 8,
      generate_random_string_alphanum choice 8⟩
    simp [Bot.button_callback, if_pos h]
  · intro h
    simp [Bot.button_callback, if_neg (not_le.mpr h)]

/-- C7 witness: count 99 shows 1 more referral needed; count 100 shows the
confirmation with the reference token. -/
theorem withdraw_threshold_witness :
    (Bot.button_callback "withdraw" 9 [(9, 99)] Bot.zeroChoice).messages =
      [Bot.Msg.insufficientReferrals 1 99] ∧
    (Bot.button_callback "withdraw" 5 [(5, 100)] Bot.zeroChoice).messages =
      [Bot.Msg.withdrawAvailable
        ("WD-" ++ Bot.generate_random_string Bot.zeroChoice 8)] :=
  ⟨(withdraw_threshold 9 [(9, 99)] Bot.zeroChoice).2 (by decide),
   ((withdraw_threshold 5 [(5, 100)] Bot.zeroChoice).1 (by decide)).1⟩

/-- C8: the stats command replies only to the configured admin identity;
any other caller receives no message and only an unauthorized-access log
entry is recorded. -/
theorem stats_admin_only (callerId adminId now : ℤ) (usage : List UsageSample)
    (uniqueUsers : ℤ) (h : callerId ≠ adminId) :
    (Bot.stats callerId adminId now usage uniqueUsers).messages = [] ∧
    (Bot.stats callerId adminId now usage uniqueUsers).unauthorizedLog =
      [callerId] := by
  constructor <;> simp [Bot.stats, if_pos h]

/-- C8 witness: admin id 42, caller id 7 — no output, one log line. -/
theorem stats_admin_only_witness :
    (Bot.stats 7 42 0 [] 0).messages = [] ∧
    (Bot.stats 7 42 0 [] 0).unauthorizedLog = [7] :=
  stats_admin_only 7 42 0 [] 0 (by decide)

/-- C9: `add_new_user` is idempotent in both stores: starting from a table
satisfying the one-record-per-id invariant, calling it twice with the same
id changes nothing on the second call and leaves exactly one record with
that id. -/
theorem add_user_idempotent (uid now1 now2 : ℤ) (su : List ℤ)
    (au : List (ℤ × ℤ)) (h1 : Db.userRecords uid su ≤ 1)
    (h2 : ApiDb.userRecords uid au ≤ 1) :
    Db.add_new_user uid (Db.add_new_user uid su) = Db.add_new_user uid su ∧
    Db.userRecords uid (Db.add_new_user uid (Db.add_new_user uid su)) = 1 ∧
    ApiDb.add_new_user now2 uid (ApiDb.add_new_user now1 uid au) =
      ApiDb.add_new_user now1 uid au ∧
    ApiDb.userRecords uid
      (ApiDb.add_new_user now2 uid (ApiDb.add_new_user now1 uid au)) = 1 := by
  have sqlite_eq : ∀ X : List ℤ, uid ∈ X → Db.add_new_user uid X = X := by
    intro X hX
    simp [Db.add_new_user, hX]
  have sqlite_mem : uid ∈ Db.add_new_user uid su := by
    by_cases h : uid ∈ su <;> simp [Db.add_new_user, h]
  have sqlite_count : Db.userRecords uid (Db.add_new_user uid su) = 1 := by
    by_cases h : uid ∈ su
    · have hge : 1 ≤ Db.userRecords uid su := by
        have hmem : uid ∈ su.filter (fun x => x = uid) :=
          List.mem_filter.mpr ⟨h, by simp⟩
        have := List.length_pos.mpr (List.ne_nil_of_mem hmem)
        simpa [Db.userRecords] using this
      rw [sqlite_eq su h]
      omega
    · have hnil : su.filter (fun x => x = uid) = [] :=
        List.filter_eq_nil_iff.mpr (fun a ha => by
          simp only [decide_eq_true_eq]
          rintro rfl
          exact h ha)
      simp [Db.add_new_user, h, Db.userRecords, List.filter_append, hnil]
  have api_eq : ∀ X : List (ℤ × ℤ),
      (X.filter (fun p => p.1 = uid)).length ≠ 0 →
      ApiDb.add_new_user now2 uid X = X := by
    intro X hX
    simp only [ApiDb.add_new_user, if_pos hX]
  have api_count : ApiDb.userRecords uid (ApiDb.add_new_user now1 uid au) = 1 := by
    by_cases h : (au.filter (fun p => p.1 = uid)).length ≠ 0
    · have hge : 1 ≤ ApiDb.userRecords uid au := by
        simp only [ApiDb.userRecords]
        omega
      simp only [ApiDb.add_new_user, if_pos h]
      simp only [ApiDb.userRecords] at *
      omega
    · push_neg at h
      simp only [ApiDb.add_new_user, if_neg (by omega : ¬ (au.filter
        (fun p => p.1 = uid)).length ≠ 0), ApiDb.userRecords,
        List.filter_append]
      simp [h]
  refine ⟨sqlite_eq _ sqlite_mem, ?_, ?_, ?_⟩
  · rw [sqlite_eq _ sqlite_mem]
    exact sqlite_count
  · have hc := api_count
    simp only [ApiDb.userRecords] at hc
    exact api_eq _ (by omega)
  · have hc := api_count
    simp only [ApiDb.userRecords] at hc
    rw [api_eq _ (by omega)]
    exact api_count

/-- C9 witness: adding user 5 twice to the empty store leaves exactly one
record in each store. -/
theorem add_user_idempotent_witness :
    Db.add_new_user 5 (Db.add_new_user 5 []) = Db.add_new_user 5 [] ∧
    Db.userRecords 5 (Db.add_new_user 5 (Db.add_new_user 5 [])) = 1 ∧
    ApiDb.add_new_user 1 5 (ApiDb.add_new_user 0 5 []) =
      ApiDb.add_new_user 0 5 [] ∧
    ApiDb.userRecords 5 (ApiDb.add_new_user 1 5 (ApiDb.add_new_user 0 5 [])) = 1 :=
  add_user_idempotent 5 0 1 [] [] (by decide) (by decide)

/-- C10: every usage sample is inserted with `connections = 1`, so in every
state reachable through the operations of the store the peak, all-time-max and
average metrics returned by `get_usage_stats` are each 0 (empty scope) or
1 — they never exceed 1. -/
theorem usage_metrics_bounded (db : List UsageSample)
    (h : ApiDb.UsageReachable db) (now : ℤ) :
    ((ApiDb.get_usage_stats now db).peak_last_hour = 0 ∨
      (ApiDb.get_usage_stats now db).peak_last_hour = 1) ∧
    ((ApiDb.get_usage_stats now db).all_time_max = 0 ∨
      (ApiDb.get_usage_stats now db).all_time_max = 1) ∧
    ((ApiDb.get_usage_stats now db).avg_last_hour = 0 ∨
      (ApiDb.get_usage_stats now db).avg_last_hour = 1) := by
  have hall := usage_reachable_all_ones db h
  have hconn : ∀ x ∈ (db.filter
      (fun s => now - 3600 ≤ s.timestamp)).map (fun s => s.connections),
      x = 1 := by
    intro x hx
    obtain ⟨s, hs, rfl⟩ := List.mem_map.mp hx
    exact hall s (List.mem_of_mem_filter hs)
  have hconnAll : ∀ x ∈ db.map (fun s => s.connections), x = 1 := by
    intro x hx
    obtain ⟨s, hs, rfl⟩ := List.mem_map.mp hx
    exact hall s hs
  refine ⟨?_, ?_, ?_⟩
  · simp only [ApiDb.get_usage_stats]
    split_ifs with hc
    · exact Or.inl rfl
    · exact Or.inr (pyMax_of_ones _ hconn hc)
  · simp only [ApiDb.get_usage_stats]
    split_ifs with hc
    · exact Or.inl rfl
    · refine Or.inr (pyMax_of_ones _ hconnAll ?_)
      simpa using hc
  · simp only [ApiDb.get_usage_stats]
    split_ifs with hc
    · exact Or.inl rfl
    · refine Or.inr ?_
      have hsum := sum_of_ones _ hconn
      rw [hsum]
      have hne : ((db.filter (fun s => now - 3600 ≤ s.timestamp)).map
          (fun s => s.connections)).length ≠ 0 := by
        intro h0
        exact hc (List.length_eq_zero.mp h0)
      push_cast
      exact div_self (by exact_mod_cast hne)

/-- C10 witness: one inserted sample, queried at time 5 — all three
metrics equal 1 (in particular they are 0 or 1). -/
theorem usage_metrics_bounded_witness :
    ((ApiDb.get_usage_stats 5 (ApiDb.update_usage_stats 0 [])).peak_last_hour = 0 ∨
      (ApiDb.get_usage_stats 5 (ApiDb.update_usage_stats 0 [])).peak_last_hour = 1) ∧
    ((ApiDb.get_usage_stats 5 (ApiDb.update_usage_stats 0 [])).all_time_max = 0 ∨
      (ApiDb.get_usage_stats 5 (ApiDb.update_usage_stats 0 [])).all_time_max = 1) ∧
    ((ApiDb.get_usage_stats 5 (ApiDb.update_usage_stats 0 [])).avg_last_hour = 0 ∨
      (ApiDb.get_usage_stats 5 (ApiDb.update_usage_stats 0 [])).avg_last_hour = 1) :=
  usage_metrics_bounded (ApiDb.update_usage_stats 0 [])
    (ApiDb.UsageReachable.update 0 [] ApiDb.UsageReachable.empty) 5

